import Mathlib

/-!
Shallow embedding of `kiwi_airports.py`: a script that fetches airport
records from a locations API and prints selected fields as CSV to stdout.

Modelling conventions:
* JSON values are the inductive `Json`; Python `dict[key]` is `Json.getKey`,
  which returns `Except String Json` — the error string is `str(e)` of the
  Python exception (for a missing key `k`, `str(KeyError(k))` is `'k'`,
  i.e. the key wrapped in single quotes, written here with \x27 escapes).
* Numeric JSON values carry their decimal literal (no arithmetic is ever
  performed on them; they are only passed through to the CSV output, where
  Python writes `str(value)`).
* The external HTTP response is a `Response` value: its `ok` field models
  `response.ok` (true exactly for 2xx statuses) and its `text` field holds
  the parsed view of the body (the value `json.loads(response.text)` would
  produce; malformed bodies are outside this model).
* stdout is a list of emitted lines.  `print(str(e))` appends one line;
  the CSV writer appends one line per header/row (line terminators are not
  modelled).  A Python exception in flight is the `Option String` component
  threaded through `output_airports`/`tryBody`; the top-level
  `except Exception` clause (`mainRun`) turns it into a printed line.
-/

namespace KiwiAirports

/-- JSON values, as produced by `json.loads`. -/
inductive Json where
  | str (s : String)
  | num (lit : String)
  | obj (fields : List (String × Json))
  | arr (elems : List Json)
deriving Repr

/-- Python `d[k]` on a parsed-JSON value: returns the value under key `k`,
or fails with `str(KeyError(k))` when the key is absent, or with a
`TypeError` message when the value is not a dict. -/
def Json.getKey : Json → String → Except String Json
  | .obj fields, k =>
      match fields.find? (fun p => p.1 == k) with
      | some p => .ok p.2
      | none => .error ("\x27" ++ k ++ "\x27")
  | _, _ => .error "TypeError: value is not subscriptable"

/-- Python `str(value)` as applied by the csv writer to a cell value.
Only strings and numbers occur in the rows the program builds. -/
def Json.toPyStr : Json → String
  | .str s => s
  | .num lit => lit
  | .obj _ => "TypeError-obj"
  | .arr _ => "TypeError-arr"

/-- The parsed command-line options: the five boolean store-true flags
registered by `parse_options`. -/
structure Options where
  cities : Bool
  coords : Bool
  iata : Bool
  names : Bool
  full : Bool
deriving Repr, DecidableEq

/-- Python `vars(parsed_options).values()`: the attribute values of the
argparse namespace, one per registered flag. -/
def Options.values (o : Options) : List Bool :=
  [o.cities, o.coords, o.iata, o.names, o.full]

/-- Lines 106-135 of `kiwi_airports.py` (`get_fieldnames`): compute the CSV
header fields from the parsed options.  The sequence of `append`/`extend`
calls on the mutable `fieldnames` list is rendered as a concatenation of
conditional segments in the same order. -/
def get_fieldnames (parsed_options : Options) : List String :=
  if !(parsed_options.values.contains true) then
    ["name"]
  else if parsed_options.full then
    ["name", "city", "lon", "lat", "iata"]
  else
    (if parsed_options.names then ["name"] else []) ++
    (if parsed_options.cities then ["city"] else []) ++
    (if parsed_options.coords then ["lon", "lat"] else []) ++
    (if parsed_options.iata then ["iata"] else [])

/-- Lines 81-103 of `kiwi_airports.py` (`create_airport_row`): build the
five-key row dict from one airport record.  The nested subscript
expressions are evaluated in Python order (dict-literal values left to
right, `airport[\x78]` before the inner subscript); the first failing
subscript aborts with its exception. -/
def create_airport_row (airport : Json) : Except String (List (String × Json)) :=
  match airport.getKey "name" with
  | .error e => .error e
  | .ok name =>
    match airport.getKey "city" with
    | .error e => .error e
    | .ok city =>
      match city.getKey "name" with
      | .error e => .error e
      | .ok cityName =>
        match airport.getKey "location" with
        | .error e => .error e
        | .ok loc1 =>
          match loc1.getKey "lon" with
          | .error e => .error e
          | .ok lon =>
            match airport.getKey "location" with
            | .error e => .error e
            | .ok loc2 =>
              match loc2.getKey "lat" with
              | .error e => .error e
              | .ok lat =>
                match airport.getKey "code" with
                | .error e => .error e
                | .ok code =>
                  .ok [("name", name), ("city", cityName), ("lon", lon),
                       ("lat", lat), ("iata", code)]

/-- Doubling of embedded quote characters, the escaping rule of Python csv. -/
def doubleQuotes : List Char → List Char
  | [] => []
  | c :: rest =>
    if c == '"' then c :: c :: doubleQuotes rest else c :: doubleQuotes rest

/-- Quoting rule of Python csv QUOTE_MINIMAL: a field containing the
delimiter, the quote char or a line-break char is wrapped in double quotes
with embedded quotes doubled; otherwise it is written verbatim. -/
def csvQuote (s : String) : String :=
  if s.data.any (fun c => c == ',' || c == '"' || c == '\r' || c == '\n') then
    "\"" ++ String.mk (doubleQuotes s.data) ++ "\""
  else s

/-- One physical CSV line: the quoted fields joined by the delimiter
(the line terminator is not modelled). -/
def csvLine (fields : List String) : String :=
  String.intercalate "," (fields.map csvQuote)

/-- Python `csv.DictWriter.writerow` with `extrasaction='ignore'` and the
default `restval=None`: for each fieldname in order, take the row value
under it (`rowdict.get(key, self.restval)`); a missing key yields the
restval, written as the empty cell, and keys of the row outside
`fieldnames` are never consulted.  Returns the emitted line. -/
def dictWriterRow (fieldnames : List String) (row : List (String × Json)) : String :=
  csvLine (fieldnames.map (fun f =>
    match row.find? (fun p => p.1 == f) with
    | some p => p.2.toPyStr
    | none => ""))

/-- Python `csv.DictWriter.writeheader`: writes the row mapping every
fieldname to itself, i.e. the line of the fieldnames themselves. -/
def writeheaderLine (fieldnames : List String) : String :=
  csvLine fieldnames

/-- The relevant part of an HTTP response from the locations API: `ok` is
`response.ok` (true exactly for 2xx statuses) and `text` is the parsed
view of the body (what `json.loads(response.text)` yields; a malformed
body is outside this model). -/
structure Response where
  ok : Bool
  text : Json

/-- The literal message of the exception raised on a non-2xx response
(line 57 of `kiwi_airports.py`). -/
def fetchErrorMessage : String := "Could not fetch data from kiwi locations API."

/-- Lines 27-58 of `kiwi_airports.py` (`get_airports`), with the network
interaction abstracted into the `response` argument: on a non-ok response
raise `Exception(fetchErrorMessage)`, otherwise return the parsed JSON
body.  The `iso_country_code` and `limit` parameters only shape the
outgoing request and are kept for fidelity. -/
def get_airports (iso_country_code : String) (limit : Nat)
    (response : Response) : Except String Json :=
  let _ := iso_country_code
  let _ := limit
  if !response.ok then
    .error fetchErrorMessage
  else
    .ok response.text

/-- Loop body of lines 76-78: map each airport record to a row and write
it.  Returns the lines written before any failure together with the
exception message of the first failing record, if any (the loop stops at
the first exception). -/
def writeRows (fieldnames : List String) : List Json → List String × Option String
  | [] => ([], none)
  | airport :: rest =>
    match create_airport_row airport with
    | .error e => ([], some e)
    | .ok row =>
      let out := writeRows fieldnames rest
      (dictWriterRow fieldnames row :: out.1, out.2)

/-- Lines 61-78 of `kiwi_airports.py` (`output_airports`): compute the
fieldnames, write the header, then iterate `json_response[locations]`
writing one row per record.  Returns the stdout lines written together
with the message of an in-flight exception if one was raised: the header
is written before the `locations` key is accessed, so a missing key or a
failing record still leaves the lines written so far on stdout. -/
def output_airports (json_response : Json) (parsed_options : Options) :
    List String × Option String :=
  let fieldnames := get_fieldnames parsed_options
  let header := writeheaderLine fieldnames
  match json_response.getKey "locations" with
  | .error e => ([header], some e)
  | .ok locs =>
    match locs with
    | .arr records =>
      let out := writeRows fieldnames records
      (header :: out.1, out.2)
    | _ => ([header], some "TypeError: locations value is not iterable")

/-- The try-suite of lines 141-142: fetch, then output.  The result is the
stdout lines written by the suite and the message of the exception in
flight when the suite was aborted, if any. -/
def tryBody (response : Response) (parsed_options : Options) :
    List String × Option String :=
  match get_airports "GB" 100 response with
  | .error e => ([], some e)
  | .ok json_response => output_airports json_response parsed_options

/-- Lines 138-144 (the `__main__` block): run the try-suite under
`except Exception as e: print(str(e))`.  Every exception of the suite is
caught and its message printed as one more stdout line; the function
always returns (the process exits normally), and its result is the full
stdout of the run. -/
def mainRun (response : Response) (parsed_options : Options) : List String :=
  match tryBody response parsed_options with
  | (lines, none) => lines
  | (lines, some e) => lines ++ [e]

/-! Sample data used by witnesses and counterexamples. -/

/-- The all-flags-false configuration (a bare `python kiwi_airports.py` run). -/
def allFalse : Options := ⟨false, false, false, false, false⟩

/-- The well-formed record of the end-to-end scenarios of the spec. -/
def heathrow : Json :=
  Json.obj [("name", .str "Heathrow"),
            ("city", .obj [("name", .str "London")]),
            ("location", .obj [("lon", .num "-0.45"), ("lat", .num "51.47")]),
            ("code", .str "LHR")]

/-- A record lacking the `code` key; `create_airport_row` raises
`KeyError(code)` on it. -/
def recNoCode : Json :=
  Json.obj [("name", .str "X"),
            ("city", .obj [("name", .str "Y")]),
            ("location", .obj [("lon", .num "1"), ("lat", .num "2")])]

/-- A non-2xx response (e.g. status 500). -/
def respFail : Response := ⟨false, Json.obj []⟩

/-- A 2xx response whose second record is malformed. -/
def respBadMid : Response :=
  ⟨true, Json.obj [("locations", Json.arr [heathrow, recNoCode])]⟩

/-- A 2xx response body with an empty locations array. -/
def sampleBody : Json := Json.obj [("locations", Json.arr [])]

/-! Spec-side definition used by the refinement claim C5. -/

/-- Modelled from the spec wording for C5: the union of the flag-selected
groups in the fixed order names, cities, coords, iata. -/
def selectedUnion (o : Options) : List String :=
  (if o.names then ["name"] else []) ++
  (if o.cities then ["city"] else []) ++
  (if o.coords then ["lon", "lat"] else []) ++
  (if o.iata then ["iata"] else [])

/-- Presence of every field `create_airport_row` dereferences: `name`,
`city.name`, `location.lon`, `location.lat` and `code`. -/
def requiredPresent (airport : Json) : Bool :=
  (airport.getKey "name").isOk &&
  (match airport.getKey "city" with
   | .ok city => (city.getKey "name").isOk
   | .error _ => false) &&
  (match airport.getKey "location" with
   | .ok loc => (loc.getKey "lon").isOk && (loc.getKey "lat").isOk
   | .error _ => false) &&
  (airport.getKey "code").isOk

/-- A well-formed airport record with the given field values. -/
def wellFormedRecord (name cityName lonLit latLit code : String) : Json :=
  Json.obj [("name", .str name),
            ("city", .obj [("name", .str cityName)]),
            ("location", .obj [("lon", .num lonLit), ("lat", .num latLit)]),
            ("code", .str code)]

/-! Claims C3, C4, C5: the field-selection policy of `get_fieldnames`. -/

/-- C3: for every configuration with the `full` flag set, the computed
field list is exactly `["name", "city", "lon", "lat", "iata"]`, regardless
of the other four flags. -/
theorem C3_full_overrides (opts : Options) (h : opts.full = true) :
    get_fieldnames opts = ["name", "city", "lon", "lat", "iata"] := by
  obtain ⟨c, k, i, n, f⟩ := opts
  cases f
  · exact Bool.noConfusion h
  · cases c <;> cases k <;> cases i <;> cases n <;> rfl

/-- Witness for C3 at a concrete configuration with all flags set. -/
theorem C3_full_overrides_witness :
    get_fieldnames ⟨true, true, true, true, true⟩ =
      ["name", "city", "lon", "lat", "iata"] :=
  C3_full_overrides ⟨true, true, true, true, true⟩ rfl

/-- C4: for the configuration with all five flags false, the computed
field list is exactly `["name"]`. -/
theorem C4_no_flags : get_fieldnames allFalse = ["name"] := rfl

/-- C5: with `full` false and at least one of the other flags set, the
computed field list is the fixed-order union of the selected groups
(names first, then cities, coords, iata), without duplicates — hence with
no field outside the selected groups. -/
theorem C5_union (o : Options) (hf : o.full = false)
    (hs : o.names = true ∨ o.cities = true ∨ o.coords = true ∨ o.iata = true) :
    get_fieldnames o = selectedUnion o ∧ (get_fieldnames o).Nodup := by
  obtain ⟨c, k, i, n, f⟩ := o
  cases f
  · cases c <;> cases k <;> cases i <;> cases n <;>
      first
        | exact ⟨rfl, by decide⟩
        | (exfalso; rcases hs with h | h | h | h <;> exact Bool.noConfusion h)
  · exact Bool.noConfusion hf

/-- Witness for C5 at the configuration with only `cities` set. -/
theorem C5_union_witness :
    get_fieldnames ⟨true, false, false, false, false⟩ =
        selectedUnion ⟨true, false, false, false, false⟩ ∧
      (get_fieldnames ⟨true, false, false, false, false⟩).Nodup :=
  C5_union ⟨true, false, false, false, false⟩ rfl (Or.inr (Or.inl rfl))

/-! Claim C6: the row mapper. -/

/-- C6: on a well-formed airport record the row mapper deterministically
produces the five-key row with `name = record.name`,
`city = record.city.name`, `lon = record.location.lon`,
`lat = record.location.lat`, `iata = record.code`; and whenever it
succeeds, every one of those nested fields was present — so an absent
field makes it fail, with no defaulting. -/
theorem C6_row_mapper (name cityName lonLit latLit code : String) :
    create_airport_row (wellFormedRecord name cityName lonLit latLit code) =
      .ok [("name", Json.str name), ("city", Json.str cityName),
           ("lon", Json.num lonLit), ("lat", Json.num latLit),
           ("iata", Json.str code)] ∧
    ∀ airport : Json, (create_airport_row airport).isOk = true →
      requiredPresent airport = true := by
  constructor
  · rfl
  · intro airport h
    unfold create_airport_row at h
    unfold requiredPresent
    cases h1 : airport.getKey "name" with
    | error e => simp only [h1] at h; exact Bool.noConfusion h
    | ok nameV =>
      simp only [h1] at h
      cases h2 : airport.getKey "city" with
      | error e => simp only [h2] at h; exact Bool.noConfusion h
      | ok cityV =>
        simp only [h2] at h
        cases h3 : cityV.getKey "name" with
        | error e => simp only [h3] at h; exact Bool.noConfusion h
        | ok cityNameV =>
          simp only [h3] at h
          cases h4 : airport.getKey "location" with
          | error e => simp only [h4] at h; exact Bool.noConfusion h
          | ok locV =>
            simp only [h4] at h
            cases h5 : locV.getKey "lon" with
            | error e => simp only [h5] at h; exact Bool.noConfusion h
            | ok lonV =>
              simp only [h5] at h
              cases h6 : locV.getKey "lat" with
              | error e => simp only [h6] at h; exact Bool.noConfusion h
              | ok latV =>
                simp only [h6] at h
                cases h7 : airport.getKey "code" with
                | error e => simp only [h7] at h; exact Bool.noConfusion h
                | ok codeV =>
                  simp [h1, h2, h3, h4, h5, h6, h7, Except.isOk, Except.toBool]

/-- Witness for C6 at the Heathrow record of the spec scenarios. -/
theorem C6_row_mapper_witness :
    create_airport_row (wellFormedRecord "Heathrow" "London" "-0.45" "51.47" "LHR") =
        .ok [("name", Json.str "Heathrow"), ("city", Json.str "London"),
             ("lon", Json.num "-0.45"), ("lat", Json.num "51.47"),
             ("iata", Json.str "LHR")] ∧
      requiredPresent (wellFormedRecord "Heathrow" "London" "-0.45" "51.47" "LHR") = true :=
  ⟨(C6_row_mapper "Heathrow" "London" "-0.45" "51.47" "LHR").1,
   (C6_row_mapper "Heathrow" "London" "-0.45" "51.47" "LHR").2 _ rfl⟩

/-! Claims C1, C2: the error path of `get_airports` and the top-level
handler. -/

/-- C1 counterexample: on a non-2xx response the raised exception carries
the message of line 57, which is not the message the claim quotes (the
source message says "kiwi locations API", the claim omits "kiwi"). -/
theorem C1_message_counterexample :
    get_airports "GB" 100 respFail =
        .error "Could not fetch data from kiwi locations API." ∧
      fetchErrorMessage ≠ "Could not fetch data from locations API." :=
  ⟨rfl, by decide⟩

/-- C1 amended: on a non-2xx response the program fails with the fixed
message "Could not fetch data from kiwi locations API.", prints exactly
that message to stdout, and returns normally (the stdout of the whole run
is that single line). -/
theorem C1_fetch_failure (resp : Response) (opts : Options)
    (h : resp.ok = false) :
    get_airports "GB" 100 resp = .error fetchErrorMessage ∧
    mainRun resp opts = [fetchErrorMessage] := by
  have hga : get_airports "GB" 100 resp = .error fetchErrorMessage := by
    simp [get_airports, h]
  exact ⟨hga, by simp [mainRun, tryBody, hga]⟩

/-- Witness for C1 at a concrete failing response. -/
theorem C1_fetch_failure_witness :
    get_airports "GB" 100 respFail = .error fetchErrorMessage ∧
      mainRun respFail allFalse = [fetchErrorMessage] :=
  C1_fetch_failure respFail allFalse rfl

/-- C2 counterexample: a record missing its `code` key aborts the
try-suite with a `KeyError`, an exception different from the fetch error;
the top-level handler nevertheless catches it, prints its message as the
last stdout line, and the run ends normally, contradicting the claim that
such failures propagate uncaught. -/
theorem C2_only_fetch_caught_counterexample :
    (tryBody respBadMid allFalse).2 = some "\x27code\x27" ∧
      (tryBody respBadMid allFalse).2 ≠ some fetchErrorMessage ∧
      mainRun respBadMid allFalse = ["name", "Heathrow", "\x27code\x27"] :=
  ⟨rfl, by decide, rfl⟩

/-- C2 amended: the top-level `except Exception` clause catches every
exception raised in the try-suite, not only the fetch error: whenever the
suite aborts with an exception, its message is printed to stdout after the
lines already written and the program exits normally. -/
theorem C2_handler_catches_all (resp : Response) (opts : Options) (e : String)
    (h : (tryBody resp opts).2 = some e) :
    mainRun resp opts = (tryBody resp opts).1 ++ [e] := by
  rcases hb : tryBody resp opts with ⟨lines, err⟩
  rw [hb] at h
  cases err with
  | none => simp at h
  | some e2 =>
    simp at h
    subst h
    simp [mainRun, hb]

/-- Witness for C2 at the malformed-record response. -/
theorem C2_handler_catches_all_witness :
    mainRun respBadMid allFalse =
      (tryBody respBadMid allFalse).1 ++ ["\x27code\x27"] :=
  C2_handler_catches_all respBadMid allFalse "\x27code\x27" rfl

/-! Claim C7: what the fetch operation returns on success. -/

/-- C7 counterexample: on a 2xx response whose body holds a `locations`
array, `get_airports` returns the whole parsed JSON object, which differs
from the `locations` array it contains. -/
theorem C7_returns_counterexample :
    Json.getKey sampleBody "locations" = .ok (Json.arr []) ∧
      get_airports "GB" 100 ⟨true, sampleBody⟩ = .ok sampleBody ∧
      sampleBody ≠ Json.arr [] :=
  ⟨rfl, rfl, fun h => Json.noConfusion h⟩

/-- C7 amended: on a 2xx response `get_airports` parses the body as JSON
and returns the entire parsed value; the `locations` array is extracted
from it later, by `output_airports`. -/
theorem C7_fetch_returns_body (resp : Response) (h : resp.ok = true) :
    get_airports "GB" 100 resp = .ok resp.text := by
  simp [get_airports, h]

/-- Witness for C7 at a concrete successful response. -/
theorem C7_fetch_returns_body_witness :
    get_airports "GB" 100 ⟨true, sampleBody⟩ = .ok sampleBody :=
  C7_fetch_returns_body ⟨true, sampleBody⟩ rfl

/-! Claim C8: the writer ignores row keys outside the field list. -/

/-- Appending an element the predicate rejects does not change `find?`. -/
theorem find_skip_last {α : Type} (q : α → Bool) (l : List α) (a : α)
    (h : q a = false) : (l ++ [a]).find? q = l.find? q := by
  rw [List.find?_append]
  have ha : [a].find? q = none := by simp [List.find?, h]
  rw [ha, Option.or_none]

/-- C8: for every configuration, adding to a row an extra key outside the
computed field list leaves the emitted CSV line unchanged — the extra
field is silently dropped and no error is raised (the writer is total). -/
theorem C8_extra_fields_dropped (opts : Options) (row : List (String × Json))
    (k : String) (v : Json) (h : k ∉ get_fieldnames opts) :
    dictWriterRow (get_fieldnames opts) (row ++ [(k, v)]) =
      dictWriterRow (get_fieldnames opts) row := by
  unfold dictWriterRow
  congr 1
  apply List.map_congr_left
  intro f hf
  have hkf : k ≠ f := fun he => h (by rw [he]; exact hf)
  have hk : ((k, v).1 == f) = false := beq_eq_false_iff_ne.mpr hkf
  rw [find_skip_last (fun p => p.1 == f) row (k, v) hk]

/-- Witness for C8: with no flags set the field list is `["name"]` and an
extra `city` entry in the row does not change the written line. -/
theorem C8_extra_fields_dropped_witness :
    dictWriterRow (get_fieldnames allFalse)
        ([("name", Json.str "Heathrow")] ++ [("city", Json.str "London")]) =
      dictWriterRow (get_fieldnames allFalse) [("name", Json.str "Heathrow")] :=
  C8_extra_fields_dropped allFalse [("name", Json.str "Heathrow")]
    "city" (Json.str "London") (by decide)

/-! Claim C9: output on failure paths. -/

/-- C9 counterexample: the message printed on a fetch failure is the
"kiwi locations API" one, not the message the claim quotes; and the claim
that no failure path leaves a header or a prefix of the data rows written
fails on a 2xx response whose second record is malformed: the header line
`name` and the data row `Heathrow` are on stdout before the caught
exception's message. -/
theorem C9_partial_output_counterexample :
    mainRun respFail allFalse =
        ["Could not fetch data from kiwi locations API."] ∧
      "Could not fetch data from kiwi locations API." ≠
        "Could not fetch data from locations API." ∧
      mainRun respBadMid allFalse = ["name", "Heathrow", "\x27code\x27"] :=
  ⟨rfl, by decide, rfl⟩

/-- C9 amended: when the API responds with a failure status the program
prints exactly "Could not fetch data from kiwi locations API." and emits
no CSV output; but a failure while iterating the records is a failure
path that does leave partial CSV output: the header and the rows of the
records preceding the failing one are already written, followed by the
caught exception's message. -/
theorem C9_failure_output (resp : Response) (opts : Options)
    (h : resp.ok = false) (resp2 : Response) (recs : List Json) (e : String)
    (h2 : resp2 = ⟨true, Json.obj [("locations", Json.arr recs)]⟩)
    (h3 : (writeRows (get_fieldnames opts) recs).2 = some e) :
    mainRun resp opts = [fetchErrorMessage] ∧
    mainRun resp2 opts =
      (writeheaderLine (get_fieldnames opts) ::
        (writeRows (get_fieldnames opts) recs).1) ++ [e] := by
  constructor
  · have hga : get_airports "GB" 100 resp = .error fetchErrorMessage := by
      simp [get_airports, h]
    simp [mainRun, tryBody, hga]
  · subst h2
    simp [mainRun, tryBody, get_airports, output_airports, Json.getKey,
      List.find?, h3]

/-- Witness for C9: the failing response and the malformed-record
response, with the concrete outputs. -/
theorem C9_failure_output_witness :
    mainRun respFail allFalse = [fetchErrorMessage] ∧
      mainRun respBadMid allFalse =
        (writeheaderLine (get_fieldnames allFalse) ::
          (writeRows (get_fieldnames allFalse) [heathrow, recNoCode]).1) ++
          ["\x27code\x27"] :=
  C9_failure_output respFail allFalse rfl respBadMid [heathrow, recNoCode]
    "\x27code\x27" rfl rfl

/-! Claim C10: the field list is never empty. -/

/-- C10: for every configuration the computed field list is non-empty and
the header line is a non-empty string; on a 2xx response whose `locations`
array is empty, the run's whole output is exactly that one header line. -/
theorem C10_nonempty_header (opts : Options) (resp : Response)
    (h : resp = ⟨true, Json.obj [("locations", Json.arr [])]⟩) :
    get_fieldnames opts ≠ [] ∧
    writeheaderLine (get_fieldnames opts) ≠ "" ∧
    mainRun resp opts = [writeheaderLine (get_fieldnames opts)] := by
  subst h
  obtain ⟨c, k, i, n, f⟩ := opts
  cases c <;> cases k <;> cases i <;> cases n <;> cases f <;>
    exact ⟨by decide, by decide, rfl⟩

/-- Witness for C10 at the no-flags configuration and the
empty-locations response. -/
theorem C10_nonempty_header_witness :
    get_fieldnames allFalse ≠ [] ∧
      writeheaderLine (get_fieldnames allFalse) ≠ "" ∧
      mainRun ⟨true, sampleBody⟩ allFalse =
        [writeheaderLine (get_fieldnames allFalse)] :=
  C10_nonempty_header allFalse ⟨true, sampleBody⟩ rfl

end KiwiAirports
